import Mathlib

/-!
# Shallow embedding of the lambda-api-handler authentication core

This file embeds the decision logic of the repository's authentication
core in Lean 4 and proves the specification claims about it:

* `src/utils/validation.ts` — email/CPF validation (`validateCpf`,
  `normalizeCpf`);
* `src/utils/rate-limiter.ts` — the in-memory sliding-window rate
  limiter (`isRateLimited`);
* `src/utils/jwt.ts` — the token service (`generateAccessToken`,
  `generateRefreshToken`, `verifyAccessToken`, `verifyRefreshToken`,
  `getAccessTokenExpiry`);
* `src/utils/database.ts` — the refresh-token store operations
  (`saveRefreshToken`, `findValidRefreshToken`, `revokeRefreshToken`),
  with the persistent table embedded as an explicit list of records
  threaded through the service functions;
* `src/services/auth.service.ts` — the orchestrator flows
  (`loginWithEmail`, `refreshAccessToken`, `logout`).

External collaborators are modelled as follows.  The `jsonwebtoken`
library is embedded symbolically: a signed token is a structure holding
its payload, the signing secret and the `iat`/`exp` claims; two sign
calls with equal payload, secret and clock second produce equal tokens,
which is faithful to the deterministic HS256 signing the code uses.
The `bcryptjs` comparison and the read-only user/client/employee
lookups are abstract parameters (`AuthEnv`).  Wall-clock time is an
explicit `Int` parameter: milliseconds in the rate limiter (the code
uses `Date.now()`), seconds in the token service (JWT claims).
JavaScript quirks that the code relies on are modelled explicitly:
`s || d` on strings (`jsOr`), truthiness of optional strings in object
spreads (`jsTruthyOpt`), and `parseInt` (`jsParseInt`, where `none`
models a `NaN` result).
-/

/-- JavaScript `s || d` for strings: the empty string is falsy. -/
def jsOr (s d : String) : String :=
  if s = "" then d else s

/-- JavaScript truthiness of an optional string field used in an object
spread `...(x \x7b&&\x7d ...)`: an absent or empty string is dropped. -/
def jsTruthyOpt (o : Option String) : Option String :=
  match o with
  | none => none
  | some s => if s = "" then none else some s

/-- Numeric value of a list of decimal digit characters. -/
def digitsVal (l : List Char) : Nat :=
  l.foldl (fun a c => a * 10 + (c.toNat - 48)) 0

/-- JavaScript `parseInt` on the strings this code feeds it: skip
leading whitespace, optional sign, then the maximal run of leading
decimal digits.  `none` models a `NaN` result (no digits to parse). -/
def jsParseInt (s : String) : Option Int :=
  let core : List Char → Option Nat := fun l =>
    let ds := l.takeWhile Char.isDigit
    if ds.isEmpty then none else some (digitsVal ds)
  match s.toList.dropWhile Char.isWhitespace with
  | '-' :: rest => (core rest).map (fun n => -(n : Int))
  | '+' :: rest => (core rest).map (fun n => (n : Int))
  | cs => (core cs).map (fun n => (n : Int))

/-- `s.endsWith(t)`, implemented on the character lists so that it
evaluates inside the kernel. -/
def strEndsWith (s t : String) : Bool :=
  let a := s.toList
  let b := t.toList
  decide (b.length ≤ a.length ∧ a.drop (a.length - b.length) = b)

/-! ## Validation utility (`src/utils/validation.ts`) -/

/-- The digit characters of `s` as numbers: the code's
`cpf.replace(/\D/g, '')` followed by per-character `parseInt`. -/
def cpfDigits (s : String) : List Nat :=
  (s.toList.filter Char.isDigit).map (fun c => c.toNat - 48)

/-- The known-invalid class `/^(\d)\1\x7b10\x7d$/`: every digit equals the
first (the 11-character length is checked before this test runs). -/
def cpfAllRepeated (ds : List Nat) : Bool :=
  match ds with
  | [] => false
  | d :: rest => rest.all (fun x => decide (x = d))

/-- `sum += parseInt(cleanCpf[i]) * (w - i)` over the digits, with the
weight descending from `w`. -/
def cpfWeightedSum : List Nat → Nat → Nat
  | [], _ => 0
  | d :: rest, w => d * w + cpfWeightedSum rest (w - 1)

/-- One check digit: `remainder = (sum * 10) % 11`, mapped to 0 when it
is 10 or 11. -/
def cpfCheckDigit (ds : List Nat) (w : Nat) : Nat :=
  let remainder := cpfWeightedSum ds w * 10 % 11
  if remainder = 10 ∨ remainder = 11 then 0 else remainder

/-- `validateCpf` from `src/utils/validation.ts`: strip non-digits,
require exactly 11 digits, reject all-repeated sequences, then compare
the two modulo-11 check digits against digits 10 and 11. -/
def validateCpf (s : String) : Bool :=
  let cleanCpf := cpfDigits s
  if cleanCpf.length ≠ 11 then false
  else if cpfAllRepeated cleanCpf then false
  else if cpfCheckDigit (cleanCpf.take 9) 10 ≠ cleanCpf.getD 9 0 then false
  else if cpfCheckDigit (cleanCpf.take 10) 11 ≠ cleanCpf.getD 10 0 then false
  else true

/-- `normalizeCpf`: strip formatting, keep the digit characters. -/
def normalizeCpf (s : String) : String :=
  String.mk (s.toList.filter Char.isDigit)

/-! ## Rate limiter (`src/utils/rate-limiter.ts`)

The in-memory `Map` is per identifier; all operations on one identifier
touch only that identifier's entry, so the state is embedded as the
`Option RateLimitEntry` stored for the identifier under scrutiny.
Times are milliseconds (`Date.now()`). -/

/-- 15 minutes, in milliseconds. -/
def RATE_LIMIT_WINDOW_MS : Int := 15 * 60 * 1000

/-- Max 5 login attempts per window. -/
def MAX_REQUESTS_PER_WINDOW : Nat := 5

/-- Block for 30 minutes after exceeding, in milliseconds. -/
def BLOCK_DURATION_MS : Int := 30 * 60 * 1000

/-- One entry of the rate-limit store: `\x7bcount, resetTime\x7d`. -/
structure RateLimitEntry where
  count : Nat
  resetTime : Int
deriving DecidableEq, Repr

/-- `isRateLimited` from `src/utils/rate-limiter.ts`, acting on the
entry stored for the identifier.  Returns the boolean result (`true`
means rate limited, i.e. denied) and the entry written back. -/
def isRateLimited (now : Int) (entry : Option RateLimitEntry) :
    Bool × RateLimitEntry :=
  match entry with
  | none =>
      -- First request
      (false, { count := 1, resetTime := now + RATE_LIMIT_WINDOW_MS })
  | some e =>
      -- Check if reset time has passed
      if e.resetTime < now then
        (false, { count := 1, resetTime := now + RATE_LIMIT_WINDOW_MS })
      else
        -- Increment counter, check if limit exceeded
        if MAX_REQUESTS_PER_WINDOW < e.count + 1 then
          (true, { count := e.count + 1, resetTime := now + BLOCK_DURATION_MS })
        else
          (false, { count := e.count + 1, resetTime := e.resetTime })

/-! ## Token service (`src/utils/jwt.ts`)

The `jsonwebtoken` library is embedded symbolically.  A signed token
carries its payload, the signing secret and the numeric `iat`/`exp`
claims; structural equality of two `SignedToken`s models string
equality of the corresponding real tokens (HS256 signing is
deterministic, and the payloads the code signs carry no nonce, so equal
payload + secret + clock second give byte-identical tokens).  Times and
lifetimes are seconds. -/

/-- The secrets record consumed by the token service
(`getAuthSecrets`).  An empty expiry string models an unset
environment value (both are falsy for the code's `||` fallbacks). -/
structure AuthSecrets where
  JWT_SECRET : String
  JWT_ACCESS_EXPIRY : String
  JWT_REFRESH_EXPIRY : String
deriving DecidableEq, Repr

/-- The claims of an access-token payload (`JwtPayload` sans
`iat`/`exp`, which live on `SignedToken`). -/
structure AccessClaims where
  sub : String
  email : String
  name : String
  role : String
  clientId : Option String
  employeeId : Option String
deriving DecidableEq, Repr

/-- The two payload shapes this service ever signs: the access-claims
object, and `\x7bsub, type: 'refresh'\x7d`. -/
inductive JwtPayloadData where
  | access (claims : AccessClaims)
  | refresh (sub : String)
deriving DecidableEq, Repr

/-- A signed JWT, symbolically. -/
structure SignedToken where
  payload : JwtPayloadData
  secret : String
  iat : Int
  exp : Int
deriving DecidableEq, Repr

/-- The duration strings accepted by the signing library's `expiresIn`
option (the `ms` parser), on the integer-plus-unit strings this code
configures: a run of digits followed by one of the units s/m/h/d/w,
converted to seconds.  `none` models the library rejecting the string
(in which case `jwt.sign` throws). -/
def msParseSeconds (s : String) : Option Int :=
  let cs := s.toList
  let ds := cs.takeWhile Char.isDigit
  if ds.isEmpty then none
  else
    let n : Int := digitsVal ds
    match cs.dropWhile Char.isDigit with
    | ['s'] => some n
    | ['m'] => some (n * 60)
    | ['h'] => some (n * 3600)
    | ['d'] => some (n * 86400)
    | ['w'] => some (n * 604800)
    | _ => none

/-- `jwt.sign(payload, secret, \x7bexpiresIn\x7d)` at clock second `now`:
`none` models the library throwing on an `expiresIn` it cannot parse. -/
def jwtSign (payload : JwtPayloadData) (secret : String)
    (expiresIn : String) (now : Int) : Option SignedToken :=
  (msParseSeconds expiresIn).map fun k =>
    { payload := payload, secret := secret, iat := now, exp := now + k }

/-- The two failures `jwt.verify` signals: `TokenExpiredError` (valid
signature, past expiry) and `JsonWebTokenError` (bad signature or
structure). -/
inductive JwtLibError where
  | tokenExpired
  | jsonWebTokenError
deriving DecidableEq, Repr

/-- `jwt.verify(token, secret)` at clock second `now`: signature check
first, then the expiry claim (`exp ≤ now` is expired). -/
def jwtVerify (t : SignedToken) (secret : String) (now : Int) :
    Except JwtLibError SignedToken :=
  if t.secret ≠ secret then .error .jsonWebTokenError
  else if t.exp ≤ now then .error .tokenExpired
  else .ok t

/-- The typed error the service raises (`AuthError` in
`src/types/index.ts`): message, HTTP status, machine-readable code. -/
structure AuthError where
  message : String
  statusCode : Nat
  code : String
deriving DecidableEq, Repr

/-- Equality of fallible results is decidable, so that concrete runs
can be checked by evaluation. -/
instance {ε α : Type} [DecidableEq ε] [DecidableEq α] :
    DecidableEq (Except ε α) := fun a b =>
  match a, b with
  | .error x, .error y => decidable_of_iff (x = y) (by simp)
  | .ok x, .ok y => decidable_of_iff (x = y) (by simp)
  | .error _, .ok _ => isFalse (by simp)
  | .ok _, .error _ => isFalse (by simp)

/-- `generateAccessToken` from `src/utils/jwt.ts`: build the payload
(optional refs spread in only when truthy), sign with the configured
secret and `JWT_ACCESS_EXPIRY || '15m'`. -/
def generateAccessToken (cfg : AuthSecrets) (now : Int)
    (user : AccessClaims) : Option SignedToken :=
  let payload : AccessClaims :=
    { sub := user.sub, email := user.email, name := user.name,
      role := user.role,
      clientId := jsTruthyOpt user.clientId,
      employeeId := jsTruthyOpt user.employeeId }
  jwtSign (.access payload) cfg.JWT_SECRET
    (jsOr cfg.JWT_ACCESS_EXPIRY "15m") now

/-- The `expiresAt` computation inside `generateRefreshToken`
(lines 46-57 of `src/utils/jwt.ts`): `d` adds days, `h` adds hours,
everything else defaults to 7 days.  JavaScript `Date` arithmetic is
modelled in seconds; `none` models an Invalid Date (the added amount
was `NaN`). -/
def refreshExpiresAt (expiresIn : String) (now : Int) : Option Int :=
  if strEndsWith expiresIn "d" then
    (jsParseInt expiresIn).map (fun n => now + n * 86400)
  else if strEndsWith expiresIn "h" then
    (jsParseInt expiresIn).map (fun n => now + n * 3600)
  else
    -- Default to 7 days
    some (now + 7 * 86400)

/-- `generateRefreshToken` from `src/utils/jwt.ts`: sign
`\x7bsub, type: 'refresh'\x7d` with `JWT_REFRESH_EXPIRY || '7d'`, and compute
`expiresAt` independently with `refreshExpiresAt`.  `none` models the
call failing (sign rejected the duration string, or the computed date
was invalid, which would make the subsequent database insert fail). -/
def generateRefreshToken (cfg : AuthSecrets) (now : Int)
    (userId : String) : Option (SignedToken × Int) :=
  let expiresIn := jsOr cfg.JWT_REFRESH_EXPIRY "7d"
  match jwtSign (.refresh userId) cfg.JWT_SECRET expiresIn now,
      refreshExpiresAt expiresIn now with
  | some t, some e => some (t, e)
  | _, _ => none

/-- `verifyAccessToken` from `src/utils/jwt.ts`: `jwt.verify`, with the
library failures mapped to `TOKEN_EXPIRED` / `INVALID_TOKEN` (the
`TOKEN_ERROR` fallback catches non-JWT errors and has no counterpart in
the symbolic library).  The decoded payload is returned as-is: the code
does not check the payload's shape. -/
def verifyAccessToken (cfg : AuthSecrets) (now : Int) (t : SignedToken) :
    Except AuthError SignedToken :=
  match jwtVerify t cfg.JWT_SECRET now with
  | .ok decoded => .ok decoded
  | .error .tokenExpired =>
      .error { message := "Token expired", statusCode := 401,
               code := "TOKEN_EXPIRED" }
  | .error .jsonWebTokenError =>
      .error { message := "Invalid token", statusCode := 401,
               code := "INVALID_TOKEN" }

/-- `verifyRefreshToken` from `src/utils/jwt.ts`: `jwt.verify`, then
reject a decoded payload whose `type` is not `'refresh'` with
`INVALID_TOKEN_TYPE`; `TokenExpiredError` maps to
`REFRESH_TOKEN_EXPIRED` and any other library failure to
`INVALID_REFRESH_TOKEN`. -/
def verifyRefreshToken (cfg : AuthSecrets) (now : Int) (t : SignedToken) :
    Except AuthError String :=
  match jwtVerify t cfg.JWT_SECRET now with
  | .ok decoded =>
      match decoded.payload with
      | .refresh sub => .ok sub
      | .access _ =>
          .error { message := "Invalid token type", statusCode := 401,
                   code := "INVALID_TOKEN_TYPE" }
  | .error .tokenExpired =>
      .error { message := "Refresh token expired", statusCode := 401,
               code := "REFRESH_TOKEN_EXPIRED" }
  | .error .jsonWebTokenError =>
      .error { message := "Invalid refresh token", statusCode := 401,
               code := "INVALID_REFRESH_TOKEN" }

/-- `getAccessTokenExpiry` from `src/utils/jwt.ts`: suffix dispatch on
`JWT_ACCESS_EXPIRY || '15m'`, defaulting to 900 seconds.  `none`
models a `NaN` result (an m/h/d suffix with no leading number). -/
def getAccessTokenExpiry (cfg : AuthSecrets) : Option Int :=
  let expiry := jsOr cfg.JWT_ACCESS_EXPIRY "15m"
  if strEndsWith expiry "m" then (jsParseInt expiry).map (· * 60)
  else if strEndsWith expiry "h" then (jsParseInt expiry).map (· * 60 * 60)
  else if strEndsWith expiry "d" then (jsParseInt expiry).map (· * 60 * 60 * 24)
  else some 900

/-! ## Refresh-token store (`src/utils/database.ts`)

The `refresh_tokens` table is embedded as a list of records; the three
operations the service uses translate the SQL directly.  The read-only
user/client/employee lookups live in `AuthEnv` below. -/

/-- One row of `refresh_tokens` as the service reads it. -/
structure RefreshRecord where
  token : SignedToken
  userId : String
  expiresAt : Int
deriving DecidableEq, Repr

/-- The `refresh_tokens` table. -/
abbrev TokenStore := List RefreshRecord

/-- `saveRefreshToken`: `INSERT INTO refresh_tokens ...`. -/
def saveRefreshToken (store : TokenStore) (userId : String)
    (token : SignedToken) (expiresAt : Int) : TokenStore :=
  store ++ [{ token := token, userId := userId, expiresAt := expiresAt }]

/-- `findValidRefreshToken`: `SELECT * FROM refresh_tokens WHERE token
= $1 AND expiresAt > NOW() LIMIT 1`. -/
def findValidRefreshToken (now : Int) (store : TokenStore)
    (token : SignedToken) : Option RefreshRecord :=
  store.find? (fun r => decide (r.token = token ∧ now < r.expiresAt))

/-- `revokeRefreshToken`: `DELETE FROM refresh_tokens WHERE token =
$1` (the schema has no revoked_at field, so revocation is deletion). -/
def revokeRefreshToken (store : TokenStore) (token : SignedToken) :
    TokenStore :=
  store.filter (fun r => decide (r.token ≠ token))

/-! ## Authentication service (`src/services/auth.service.ts`)

The external read-only lookups and the bcrypt comparison are abstract
parameters.  Each flow takes the current `TokenStore` and returns it
alongside the result; `loginWithEmail` additionally returns the list of
`(password, hash)` pairs it handed to `bcrypt.compare`, so that the
dummy-comparison behaviour is observable. -/

/-- `DbUser` as the service reads it (`isActive` filtering happens
inside the lookups, which are abstract here). -/
structure DbUser where
  id : String
  email : String
  password_hash : String
  name : String
  role : String
deriving DecidableEq, Repr

/-- `DbClient`, restricted to the field the service reads. -/
structure DbClient where
  id : String
deriving DecidableEq, Repr

/-- `DbEmployee`, restricted to the field the service reads. -/
structure DbEmployee where
  id : String
deriving DecidableEq, Repr

/-- The external collaborators of the service: user/client/employee
lookups (`src/utils/database.ts`) and `bcrypt.compare` (password
first, hash second). -/
structure AuthEnv where
  findUserByEmail : String → Option DbUser
  findUserById : String → Option DbUser
  findClientByUserId : String → Option DbClient
  findEmployeeByUserId : String → Option DbEmployee
  bcryptCompare : String → String → Bool

/-- The `UserInfo` object built by the flows: optional refs spread in
from the client/employee lookups.  A present lookup result always has
a truthy `id` object, so `Option.map` is the exact translation of
`...(client && \x7bclientId: client.id\x7d)`. -/
def buildUserInfo (user : DbUser) (client : Option DbClient)
    (employee : Option DbEmployee) : AccessClaims :=
  { sub := user.id, email := user.email, name := user.name,
    role := user.role,
    clientId := client.map (fun c => c.id),
    employeeId := employee.map (fun e => e.id) }

/-- `AuthResponse` as returned to the transport layer. -/
structure AuthResponse where
  accessToken : SignedToken
  refreshToken : SignedToken
  expiresIn : Option Int
  tokenType : String
  user : AccessClaims
deriving DecidableEq, Repr

/-- The fixed, precomputed hash the email login compares against when
no user matches, to keep the miss path's timing in line with the
wrong-password path (`src/services/auth.service.ts` line 38). -/
def dummyBcryptHash : String :=
  "$2a$10$dummyhashfortimingatttackprevention00000000000000000"

/-- The surfacing of an error thrown by a library call the service does
not catch (`jwt.sign` on an unparseable duration, a failed insert): the
handler maps it to a generic 500. -/
def internalError : AuthError :=
  { message := "Internal server error", statusCode := 500,
    code := "INTERNAL_ERROR" }

/-- `loginWithEmail` from `src/services/auth.service.ts`.  Returns the
result, the token store after the call, and the `(password, hash)`
pairs passed to `bcrypt.compare`, in order. -/
def loginWithEmail (env : AuthEnv) (cfg : AuthSecrets) (now : Int)
    (email password : String) (store : TokenStore) :
    Except AuthError AuthResponse × TokenStore × List (String × String) :=
  match env.findUserByEmail email with
  | none =>
      -- Hash a dummy password to maintain consistent timing
      (.error { message := "Invalid credentials", statusCode := 401,
                code := "INVALID_CREDENTIALS" },
       store, [(password, dummyBcryptHash)])
  | some user =>
      if env.bcryptCompare password user.password_hash then
        let client := env.findClientByUserId user.id
        let employee := env.findEmployeeByUserId user.id
        let userInfo := buildUserInfo user client employee
        match generateAccessToken cfg now userInfo with
        | none => (.error internalError, store, [(password, user.password_hash)])
        | some accessToken =>
            match generateRefreshToken cfg now user.id with
            | none => (.error internalError, store, [(password, user.password_hash)])
            | some (refreshToken, expiresAt) =>
                let store1 := saveRefreshToken store user.id refreshToken expiresAt
                (.ok { accessToken := accessToken, refreshToken := refreshToken,
                       expiresIn := getAccessTokenExpiry cfg,
                       tokenType := "Bearer", user := userInfo },
                 store1, [(password, user.password_hash)])
      else
        (.error { message := "Invalid credentials", statusCode := 401,
                  code := "INVALID_CREDENTIALS" },
         store, [(password, user.password_hash)])

/-- `refreshAccessToken` from `src/services/auth.service.ts`: verify
the JWT, look the token up in the store, resolve the user, revoke the
presented record, then issue and persist a new pair.  Returns the
result and the store after the call. -/
def refreshAccessToken (env : AuthEnv) (cfg : AuthSecrets) (now : Int)
    (store : TokenStore) (refreshTokenStr : SignedToken) :
    Except AuthError AuthResponse × TokenStore :=
  match verifyRefreshToken cfg now refreshTokenStr with
  | .error e => (.error e, store)
  | .ok userId =>
      match findValidRefreshToken now store refreshTokenStr with
      | none =>
          (.error { message := "Refresh token not found or expired",
                    statusCode := 401, code := "INVALID_REFRESH_TOKEN" },
           store)
      | some _ =>
          match env.findUserById userId with
          | none =>
              (.error { message := "User not found", statusCode := 404,
                        code := "USER_NOT_FOUND" },
               store)
          | some user =>
              let client := env.findClientByUserId user.id
              let employee := env.findEmployeeByUserId user.id
              -- Revoke old refresh token
              let store1 := revokeRefreshToken store refreshTokenStr
              let userInfo := buildUserInfo user client employee
              match generateAccessToken cfg now userInfo with
              | none => (.error internalError, store1)
              | some accessToken =>
                  match generateRefreshToken cfg now user.id with
                  | none => (.error internalError, store1)
                  | some (newRefreshToken, expiresAt) =>
                      let store2 :=
                        saveRefreshToken store1 user.id newRefreshToken expiresAt
                      (.ok { accessToken := accessToken,
                             refreshToken := newRefreshToken,
                             expiresIn := getAccessTokenExpiry cfg,
                             tokenType := "Bearer", user := userInfo },
                       store2)

/-- `logout` from `src/services/auth.service.ts`: revoke the presented
refresh token's record.  Total: deleting an absent record is a no-op. -/
def logout (store : TokenStore) (refreshTokenStr : SignedToken) :
    TokenStore :=
  revokeRefreshToken store refreshTokenStr
/-! ## Claims -/

/-- `jsTruthyOpt` is the identity away from the degenerate `some ""`. -/
theorem jsTruthyOpt_eq_self (o : Option String) (h : o ≠ some "") :
    jsTruthyOpt o = o := by
  match o with
  | none => rfl
  | some s =>
      have hs : s ≠ "" := fun hs => h (by rw [hs])
      simp [jsTruthyOpt, hs]

/-- C3: `validateCpf` strips non-digit characters and returns false
unless exactly 11 digits remain (`s1`), returns false for
all-repeated-digit sequences (`s2`), and otherwise accepts exactly when
the two modulo-11 check digits equal the 10th and 11th digits (`s3`);
"111.444.777-35" normalizes to "11144477735" and validates true,
"111.444.777-36" validates false, and "11111111111" validates false. -/
theorem validateCpf_spec (s1 s2 s3 : String)
    (h1 : (cpfDigits s1).length ≠ 11)
    (h2a : (cpfDigits s2).length = 11)
    (h2b : cpfAllRepeated (cpfDigits s2) = true)
    (h3a : (cpfDigits s3).length = 11)
    (h3b : cpfAllRepeated (cpfDigits s3) = false) :
    validateCpf s1 = false ∧
    validateCpf s2 = false ∧
    (validateCpf s3 = true ↔
      (cpfCheckDigit ((cpfDigits s3).take 9) 10 = (cpfDigits s3).getD 9 0 ∧
       cpfCheckDigit ((cpfDigits s3).take 10) 11 = (cpfDigits s3).getD 10 0)) ∧
    normalizeCpf "111.444.777-35" = "11144477735" ∧
    validateCpf "11144477735" = true ∧
    validateCpf "111.444.777-35" = true ∧
    validateCpf "111.444.777-36" = false ∧
    validateCpf "11111111111" = false := by
  refine ⟨?_, ?_, ?_, by decide, by decide, by decide, by decide, by decide⟩
  · simp [validateCpf, h1]
  · simp [validateCpf, h2a, h2b]
  · simp only [validateCpf, h3a, h3b]
    by_cases hA : cpfCheckDigit ((cpfDigits s3).take 9) 10 = (cpfDigits s3).getD 9 0 <;>
      by_cases hB : cpfCheckDigit ((cpfDigits s3).take 10) 11 = (cpfDigits s3).getD 10 0 <;>
        simp [hA, hB]

/-- Witness for `validateCpf_spec` at concrete strings. -/
theorem validateCpf_spec_witness :
    validateCpf "123" = false ∧
    validateCpf "11111111111" = false ∧
    (validateCpf "111.444.777-35" = true ↔
      (cpfCheckDigit ((cpfDigits "111.444.777-35").take 9) 10 =
        (cpfDigits "111.444.777-35").getD 9 0 ∧
       cpfCheckDigit ((cpfDigits "111.444.777-35").take 10) 11 =
        (cpfDigits "111.444.777-35").getD 10 0)) ∧
    normalizeCpf "111.444.777-35" = "11144477735" ∧
    validateCpf "11144477735" = true ∧
    validateCpf "111.444.777-35" = true ∧
    validateCpf "111.444.777-36" = false ∧
    validateCpf "11111111111" = false :=
  validateCpf_spec "123" "11111111111" "111.444.777-35"
    (by decide) (by decide) (by decide) (by decide) (by decide)

/-- C2: the rate limiter's check-and-record step on one identifier:
starting with no entry, five calls at times `t1 ≤ … ≤ t5` inside the
window opened at `t1` are all allowed with the count incrementing and
the reset time unchanged; the sixth call within the same window is
denied and the reset time escalates to `t6 + BLOCK_DURATION_MS` (a
seventh denied attempt at `t8` inside the block escalates again to
`t8 + BLOCK_DURATION_MS`); and once the reset time has passed
(`t7`), a new call is allowed with a fresh window of count 1. -/
theorem isRateLimited_window_spec (t1 t2 t3 t4 t5 t6 t7 t8 : Int)
    (h12 : t1 ≤ t2) (h23 : t2 ≤ t3) (h34 : t3 ≤ t4) (h45 : t4 ≤ t5)
    (h56 : t5 ≤ t6) (h6w : t6 ≤ t1 + RATE_LIMIT_WINDOW_MS)
    (h7 : t6 + BLOCK_DURATION_MS < t7) (h8 : t8 ≤ t6 + BLOCK_DURATION_MS) :
    isRateLimited t1 none = (false, ⟨1, t1 + RATE_LIMIT_WINDOW_MS⟩) ∧
    isRateLimited t2 (some ⟨1, t1 + RATE_LIMIT_WINDOW_MS⟩) =
      (false, ⟨2, t1 + RATE_LIMIT_WINDOW_MS⟩) ∧
    isRateLimited t3 (some ⟨2, t1 + RATE_LIMIT_WINDOW_MS⟩) =
      (false, ⟨3, t1 + RATE_LIMIT_WINDOW_MS⟩) ∧
    isRateLimited t4 (some ⟨3, t1 + RATE_LIMIT_WINDOW_MS⟩) =
      (false, ⟨4, t1 + RATE_LIMIT_WINDOW_MS⟩) ∧
    isRateLimited t5 (some ⟨4, t1 + RATE_LIMIT_WINDOW_MS⟩) =
      (false, ⟨5, t1 + RATE_LIMIT_WINDOW_MS⟩) ∧
    isRateLimited t6 (some ⟨5, t1 + RATE_LIMIT_WINDOW_MS⟩) =
      (true, ⟨6, t6 + BLOCK_DURATION_MS⟩) ∧
    isRateLimited t8 (some ⟨6, t6 + BLOCK_DURATION_MS⟩) =
      (true, ⟨7, t8 + BLOCK_DURATION_MS⟩) ∧
    isRateLimited t7 (some ⟨6, t6 + BLOCK_DURATION_MS⟩) =
      (false, ⟨1, t7 + RATE_LIMIT_WINDOW_MS⟩) := by
  simp only [RATE_LIMIT_WINDOW_MS, BLOCK_DURATION_MS] at h6w h7 h8 ⊢
  refine ⟨rfl, ?_, ?_, ?_, ?_, ?_, ?_, ?_⟩
  · simp only [isRateLimited]
    rw [if_neg (by omega), if_neg (by norm_num [MAX_REQUESTS_PER_WINDOW])]
  · simp only [isRateLimited]
    rw [if_neg (by omega), if_neg (by norm_num [MAX_REQUESTS_PER_WINDOW])]
  · simp only [isRateLimited]
    rw [if_neg (by omega), if_neg (by norm_num [MAX_REQUESTS_PER_WINDOW])]
  · simp only [isRateLimited]
    rw [if_neg (by omega), if_neg (by norm_num [MAX_REQUESTS_PER_WINDOW])]
  · simp only [isRateLimited]
    rw [if_neg (by omega), if_pos (by norm_num [MAX_REQUESTS_PER_WINDOW])]
    norm_num [BLOCK_DURATION_MS]
  · simp only [isRateLimited]
    rw [if_neg (by omega), if_pos (by norm_num [MAX_REQUESTS_PER_WINDOW])]
    norm_num [BLOCK_DURATION_MS]
  · simp only [isRateLimited]
    rw [if_pos (by omega)]
    norm_num [RATE_LIMIT_WINDOW_MS]

/-- Witness for `isRateLimited_window_spec` at concrete times. -/
theorem isRateLimited_window_spec_witness :
    isRateLimited 0 none = (false, ⟨1, 0 + RATE_LIMIT_WINDOW_MS⟩) ∧
    isRateLimited 0 (some ⟨1, 0 + RATE_LIMIT_WINDOW_MS⟩) =
      (false, ⟨2, 0 + RATE_LIMIT_WINDOW_MS⟩) ∧
    isRateLimited 0 (some ⟨2, 0 + RATE_LIMIT_WINDOW_MS⟩) =
      (false, ⟨3, 0 + RATE_LIMIT_WINDOW_MS⟩) ∧
    isRateLimited 0 (some ⟨3, 0 + RATE_LIMIT_WINDOW_MS⟩) =
      (false, ⟨4, 0 + RATE_LIMIT_WINDOW_MS⟩) ∧
    isRateLimited 0 (some ⟨4, 0 + RATE_LIMIT_WINDOW_MS⟩) =
      (false, ⟨5, 0 + RATE_LIMIT_WINDOW_MS⟩) ∧
    isRateLimited 0 (some ⟨5, 0 + RATE_LIMIT_WINDOW_MS⟩) =
      (true, ⟨6, 0 + BLOCK_DURATION_MS⟩) ∧
    isRateLimited 0 (some ⟨6, 0 + BLOCK_DURATION_MS⟩) =
      (true, ⟨7, 0 + BLOCK_DURATION_MS⟩) ∧
    isRateLimited 1800001 (some ⟨6, 0 + BLOCK_DURATION_MS⟩) =
      (false, ⟨1, 1800001 + RATE_LIMIT_WINDOW_MS⟩) :=
  isRateLimited_window_spec 0 0 0 0 0 0 1800001 0
    (by norm_num) (by norm_num) (by norm_num) (by norm_num) (by norm_num)
    (by norm_num [RATE_LIMIT_WINDOW_MS]) (by norm_num [BLOCK_DURATION_MS])
    (by norm_num [BLOCK_DURATION_MS])

/-- C4: access-token round-trip.  For any configuration whose access
lifetime parses to `k > 0` seconds and any identity (with refs not
degenerate-empty, which JavaScript truthiness would drop), the token
issued at `now` carries exactly the identity's public fields, verifying
it succeeds and returns those same claims, and its
`exp - iat` is exactly the configured lifetime `k` (so within the
claimed one-second tolerance). -/
theorem accessToken_roundtrip (cfg : AuthSecrets) (now k : Int)
    (user : AccessClaims) (t : SignedToken)
    (hk : msParseSeconds (jsOr cfg.JWT_ACCESS_EXPIRY "15m") = some k)
    (hk0 : 0 < k)
    (hc : user.clientId ≠ some "") (he : user.employeeId ≠ some "")
    (ht : generateAccessToken cfg now user = some t) :
    t.payload = .access { sub := user.sub, email := user.email,
                          name := user.name, role := user.role,
                          clientId := user.clientId,
                          employeeId := user.employeeId } ∧
    verifyAccessToken cfg now t = .ok t ∧
    t.exp - t.iat = k := by
  unfold generateAccessToken jwtSign at ht
  rw [hk] at ht
  simp only [Option.map_some', Option.some.injEq] at ht
  subst ht
  refine ⟨by simp [jsTruthyOpt_eq_self _ hc, jsTruthyOpt_eq_self _ he], ?_, ?_⟩
  · simp only [verifyAccessToken, jwtVerify]
    rw [if_neg (by simp), if_neg (by omega)]
  · dsimp only
    omega

/-- Witness for `accessToken_roundtrip` at a concrete configuration and
identity. -/
theorem accessToken_roundtrip_witness :
    (⟨.access ⟨"u1", "ana@example.com", "Ana", "client", some "c1", none⟩,
      "secret", 0, 900⟩ : SignedToken).payload =
      .access { sub := "u1", email := "ana@example.com", name := "Ana",
                role := "client", clientId := some "c1",
                employeeId := none } ∧
    verifyAccessToken ⟨"secret", "15m", "7d"⟩ 0
      ⟨.access ⟨"u1", "ana@example.com", "Ana", "client", some "c1", none⟩,
       "secret", 0, 900⟩ =
      .ok ⟨.access ⟨"u1", "ana@example.com", "Ana", "client", some "c1", none⟩,
           "secret", 0, 900⟩ ∧
    ((900 : Int) - 0 = 900) :=
  accessToken_roundtrip ⟨"secret", "15m", "7d"⟩ 0 900
    ⟨"u1", "ana@example.com", "Ana", "client", some "c1", none⟩
    ⟨.access ⟨"u1", "ana@example.com", "Ana", "client", some "c1", none⟩,
     "secret", 0, 900⟩
    (by decide) (by decide) (by decide) (by decide) (by decide)

/-- C8: `verifyRefreshToken` on a token that verifies (right secret,
unexpired) but whose decoded payload is not of kind "refresh" fails
with the wrong-token-kind error `INVALID_TOKEN_TYPE`; on a token signed
with the configured secret, of kind "refresh" and unexpired, it
succeeds and returns the embedded subject id. -/
theorem verifyRefreshToken_kind_spec (cfg : AuthSecrets) (now : Int)
    (t1 t2 : SignedToken) (c : AccessClaims) (sub : String)
    (h1s : t1.secret = cfg.JWT_SECRET) (h1e : now < t1.exp)
    (h1p : t1.payload = .access c)
    (h2s : t2.secret = cfg.JWT_SECRET) (h2e : now < t2.exp)
    (h2p : t2.payload = .refresh sub) :
    verifyRefreshToken cfg now t1 =
      .error ⟨"Invalid token type", 401, "INVALID_TOKEN_TYPE"⟩ ∧
    verifyRefreshToken cfg now t2 = .ok sub := by
  constructor
  · obtain ⟨p1, s1, i1, e1⟩ := t1
    dsimp only at h1s h1e h1p
    subst h1s h1p
    simp only [verifyRefreshToken, jwtVerify]
    rw [if_neg (by simp), if_neg (by omega)]
  · obtain ⟨p2, s2, i2, e2⟩ := t2
    dsimp only at h2s h2e h2p
    subst h2s h2p
    simp only [verifyRefreshToken, jwtVerify]
    rw [if_neg (by simp), if_neg (by omega)]

/-- Witness for `verifyRefreshToken_kind_spec` at concrete tokens. -/
theorem verifyRefreshToken_kind_spec_witness :
    verifyRefreshToken ⟨"secret", "15m", "7d"⟩ 0
      ⟨.access ⟨"u1", "a@b.co", "Ana", "client", none, none⟩, "secret", 0, 900⟩ =
      .error ⟨"Invalid token type", 401, "INVALID_TOKEN_TYPE"⟩ ∧
    verifyRefreshToken ⟨"secret", "15m", "7d"⟩ 0
      ⟨.refresh "u1", "secret", 0, 604800⟩ = .ok "u1" :=
  verifyRefreshToken_kind_spec ⟨"secret", "15m", "7d"⟩ 0
    ⟨.access ⟨"u1", "a@b.co", "Ana", "client", none, none⟩, "secret", 0, 900⟩
    ⟨.refresh "u1", "secret", 0, 604800⟩
    ⟨"u1", "a@b.co", "Ana", "client", none, none⟩ "u1"
    (by decide) (by decide) (by decide) (by decide) (by decide) (by decide)

/-- C9 (refuting): with the refresh expiry configured as "30m" — a
suffix the signing library accepts, meaning minutes — the refresh token
issued at time 0 is signed to expire at second 1800, while the
independently computed `expiresAt` misses the minute suffix (the code
only handles "d" and "h") and lands on the 7-day default, second
604800.  The persisted expiry therefore does not match the expiry
embedded in the token's own signature. -/
theorem generateRefreshToken_expiresAt_mismatch :
    generateRefreshToken ⟨"secret", "15m", "30m"⟩ 0 "u1" =
      some (⟨.refresh "u1", "secret", 0, 1800⟩, 604800) ∧
    ¬ (604800 : Int) = 1800 :=
  ⟨by decide, by decide⟩

/-- C10 (refuting): the claim says an "m" suffix is converted to
seconds by that unit; but for the refresh token's computed `expiresAt`,
"30m" is not converted to 30 minutes — it falls into the 7-day default
branch. -/
theorem refreshExpiresAt_minutes_not_converted :
    refreshExpiresAt "30m" 0 = some 604800 ∧
    ¬ refreshExpiresAt "30m" 0 = some (30 * 60) :=
  ⟨by decide, by decide⟩

/-- C10 (amended): duration parsing falls back rather than signalling
an error.  For the access-token lifetime, a numeric value with suffix
"m"/"h"/"d" is converted to seconds by that unit and any other suffix
yields the documented 900-second default; for the refresh token's
computed `expiresAt`, only "d" and "h" are converted by unit, and any
other suffix — minutes included — yields the documented 7-day
default. -/
theorem expiryParsing_fallback_spec (sec re : String)
    (s1 s2 s3 s4 s5 s6 s7 : String) (n1 n2 n3 n5 n6 now : Int)
    (h1p : jsParseInt s1 = some n1) (h1 : strEndsWith s1 "m" = true)
    (h2p : jsParseInt s2 = some n2) (h2 : strEndsWith s2 "h" = true)
    (h2m : strEndsWith s2 "m" = false)
    (h3p : jsParseInt s3 = some n3) (h3 : strEndsWith s3 "d" = true)
    (h3m : strEndsWith s3 "m" = false) (h3h : strEndsWith s3 "h" = false)
    (h4m : strEndsWith s4 "m" = false) (h4h : strEndsWith s4 "h" = false)
    (h4d : strEndsWith s4 "d" = false)
    (h5p : jsParseInt s5 = some n5) (h5 : strEndsWith s5 "d" = true)
    (h6p : jsParseInt s6 = some n6) (h6 : strEndsWith s6 "h" = true)
    (h6d : strEndsWith s6 "d" = false)
    (h7d : strEndsWith s7 "d" = false) (h7h : strEndsWith s7 "h" = false) :
    getAccessTokenExpiry ⟨sec, s1, re⟩ = some (n1 * 60) ∧
    getAccessTokenExpiry ⟨sec, s2, re⟩ = some (n2 * 60 * 60) ∧
    getAccessTokenExpiry ⟨sec, s3, re⟩ = some (n3 * 60 * 60 * 24) ∧
    getAccessTokenExpiry ⟨sec, s4, re⟩ = some 900 ∧
    refreshExpiresAt s5 now = some (now + n5 * 86400) ∧
    refreshExpiresAt s6 now = some (now + n6 * 3600) ∧
    refreshExpiresAt s7 now = some (now + 7 * 86400) := by
  have hne : ∀ s : String, strEndsWith s "m" = true → s ≠ "" := by
    intro s hs h
    rw [h] at hs
    exact absurd hs (by decide)
  have hne' : ∀ s : String, strEndsWith s "h" = true → s ≠ "" := by
    intro s hs h
    rw [h] at hs
    exact absurd hs (by decide)
  have hne'' : ∀ s : String, strEndsWith s "d" = true → s ≠ "" := by
    intro s hs h
    rw [h] at hs
    exact absurd hs (by decide)
  refine ⟨?_, ?_, ?_, ?_, ?_, ?_, ?_⟩
  · simp only [getAccessTokenExpiry, jsOr, if_neg (hne s1 h1)]
    rw [if_pos h1, h1p]
    rfl
  · simp only [getAccessTokenExpiry, jsOr, if_neg (hne' s2 h2)]
    rw [if_neg (by simp [h2m]), if_pos h2, h2p]
    rfl
  · simp only [getAccessTokenExpiry, jsOr, if_neg (hne'' s3 h3)]
    rw [if_neg (by simp [h3m]), if_neg (by simp [h3h]), if_pos h3, h3p]
    rfl
  · by_cases hs4 : s4 = ""
    · subst hs4
      rfl
    · simp only [getAccessTokenExpiry, jsOr, if_neg hs4]
      rw [if_neg (by simp [h4m]), if_neg (by simp [h4h]), if_neg (by simp [h4d])]
  · simp only [refreshExpiresAt]
    rw [if_pos h5, h5p]
    rfl
  · simp only [refreshExpiresAt]
    rw [if_neg (by simp [h6d]), if_pos h6, h6p]
    rfl
  · simp only [refreshExpiresAt]
    rw [if_neg (by simp [h7d]), if_neg (by simp [h7h])]

/-- Witness for `expiryParsing_fallback_spec` at concrete duration
strings. -/
theorem expiryParsing_fallback_spec_witness :
    getAccessTokenExpiry ⟨"secret", "2m", "7d"⟩ = some (2 * 60) ∧
    getAccessTokenExpiry ⟨"secret", "3h", "7d"⟩ = some (3 * 60 * 60) ∧
    getAccessTokenExpiry ⟨"secret", "4d", "7d"⟩ = some (4 * 60 * 60 * 24) ∧
    getAccessTokenExpiry ⟨"secret", "banana", "7d"⟩ = some 900 ∧
    refreshExpiresAt "5d" 0 = some (0 + 5 * 86400) ∧
    refreshExpiresAt "6h" 0 = some (0 + 6 * 3600) ∧
    refreshExpiresAt "30m" 0 = some (0 + 7 * 86400) :=
  expiryParsing_fallback_spec "secret" "7d" "2m" "3h" "4d" "banana" "5d" "6h" "30m"
    2 3 4 5 6 0
    (by decide) (by decide) (by decide) (by decide) (by decide) (by decide)
    (by decide) (by decide) (by decide) (by decide) (by decide) (by decide)
    (by decide) (by decide) (by decide) (by decide) (by decide) (by decide)
    (by decide)

/-- C5: email-password verification is enumeration-resistant.  A login
for an email with no matching user and a login for an existing email
with a password bcrypt rejects fail with the identical
`INVALID_CREDENTIALS` error and leave the token store untouched; the
missing-user path performs exactly one comparison, against the fixed
precomputed dummy hash, before failing, and the wrong-password path
performs exactly one comparison against the stored hash. -/
theorem loginWithEmail_enumeration_resistant (env : AuthEnv)
    (cfg : AuthSecrets) (now : Int) (email1 email2 password : String)
    (store : TokenStore) (u : DbUser)
    (h1 : env.findUserByEmail email1 = none)
    (h2 : env.findUserByEmail email2 = some u)
    (h3 : env.bcryptCompare password u.password_hash = false) :
    loginWithEmail env cfg now email1 password store =
      (.error ⟨"Invalid credentials", 401, "INVALID_CREDENTIALS"⟩, store,
       [(password, dummyBcryptHash)]) ∧
    loginWithEmail env cfg now email2 password store =
      (.error ⟨"Invalid credentials", 401, "INVALID_CREDENTIALS"⟩, store,
       [(password, u.password_hash)]) := by
  constructor
  · simp only [loginWithEmail, h1]
  · simp only [loginWithEmail, h2]
    rw [if_neg (by simp [h3])]

/-- Witness for `loginWithEmail_enumeration_resistant` at a concrete
environment holding one user. -/
theorem loginWithEmail_enumeration_resistant_witness :
    loginWithEmail
      ⟨fun e => if e = "bo@example.com"
          then some ⟨"u1", "bo@example.com", "hash1", "Bo", "client"⟩ else none,
        fun _ => none, fun _ => none, fun _ => none, fun _ _ => false⟩
      ⟨"secret", "15m", "7d"⟩ 0 "ana@example.com" "pw" [] =
      (.error ⟨"Invalid credentials", 401, "INVALID_CREDENTIALS"⟩, [],
       [("pw", dummyBcryptHash)]) ∧
    loginWithEmail
      ⟨fun e => if e = "bo@example.com"
          then some ⟨"u1", "bo@example.com", "hash1", "Bo", "client"⟩ else none,
        fun _ => none, fun _ => none, fun _ => none, fun _ _ => false⟩
      ⟨"secret", "15m", "7d"⟩ 0 "bo@example.com" "pw" [] =
      (.error ⟨"Invalid credentials", 401, "INVALID_CREDENTIALS"⟩, [],
       [("pw", "hash1")]) :=
  loginWithEmail_enumeration_resistant _ ⟨"secret", "15m", "7d"⟩ 0
    "ana@example.com" "bo@example.com" "pw" []
    ⟨"u1", "bo@example.com", "hash1", "Bo", "client"⟩
    (by decide) (by decide) (by decide)

/-- After revoking a token, no record for it can be found at any
time. -/
theorem findValidRefreshToken_revoke (now : Int) (store : TokenStore)
    (t : SignedToken) :
    findValidRefreshToken now (revokeRefreshToken store t) t = none := by
  rw [findValidRefreshToken, List.find?_eq_none]
  intro r hr
  rw [revokeRefreshToken, List.mem_filter] at hr
  simp only [decide_eq_true_eq] at hr ⊢
  exact fun h => hr.2 h.1

/-- Revoking a token twice equals revoking it once. -/
theorem revokeRefreshToken_idem (store : TokenStore) (t : SignedToken) :
    revokeRefreshToken (revokeRefreshToken store t) t =
      revokeRefreshToken store t := by
  simp [revokeRefreshToken, List.filter_filter]

/-- `refreshAccessToken` when the verification step fails: the error is
passed through and the store is untouched. -/
theorem refreshAccessToken_verify_error (env : AuthEnv)
    (cfg : AuthSecrets) (now : Int) (store : TokenStore)
    (t : SignedToken) (e : AuthError)
    (h : verifyRefreshToken cfg now t = .error e) :
    refreshAccessToken env cfg now store t = (.error e, store) := by
  simp only [refreshAccessToken, h]

/-- `refreshAccessToken` when no valid record exists for the presented
token: `INVALID_REFRESH_TOKEN` and the store is untouched. -/
theorem refreshAccessToken_no_record (env : AuthEnv) (cfg : AuthSecrets)
    (now : Int) (store : TokenStore) (t : SignedToken) (uid : String)
    (h1 : verifyRefreshToken cfg now t = .ok uid)
    (h2 : findValidRefreshToken now store t = none) :
    refreshAccessToken env cfg now store t =
      (.error ⟨"Refresh token not found or expired", 401,
               "INVALID_REFRESH_TOKEN"⟩, store) := by
  simp only [refreshAccessToken, h1, h2]

/-- `refreshAccessToken` when the decoded subject has no active user:
`USER_NOT_FOUND` and the store is untouched. -/
theorem refreshAccessToken_no_user (env : AuthEnv) (cfg : AuthSecrets)
    (now : Int) (store : TokenStore) (t : SignedToken) (uid : String)
    (r : RefreshRecord)
    (h1 : verifyRefreshToken cfg now t = .ok uid)
    (h2 : findValidRefreshToken now store t = some r)
    (h3 : env.findUserById uid = none) :
    refreshAccessToken env cfg now store t =
      (.error ⟨"User not found", 404, "USER_NOT_FOUND"⟩, store) := by
  simp only [refreshAccessToken, h1, h2, h3]

/-- Once verification, record lookup and user resolution have all
succeeded, the only error `refreshAccessToken` can still produce is the
internal one (a token-generation failure). -/
theorem refreshAccessToken_late_error (env : AuthEnv) (cfg : AuthSecrets)
    (now : Int) (store : TokenStore) (t : SignedToken) (uid : String)
    (r : RefreshRecord) (user : DbUser) (e : AuthError)
    (h1 : verifyRefreshToken cfg now t = .ok uid)
    (h2 : findValidRefreshToken now store t = some r)
    (h3 : env.findUserById uid = some user)
    (he : (refreshAccessToken env cfg now store t).1 = .error e) :
    e = internalError := by
  simp only [refreshAccessToken, h1, h2, h3] at he
  split at he
  · simp only [Except.error.injEq] at he
    exact he.symm
  · split at he
    · simp only [Except.error.injEq] at he
      exact he.symm
    · exact absurd he (by simp)

/-- C6: logout is idempotent.  Logout deletes the presented token's
persisted record (afterwards no valid record for it can be found, at
any probe time `now`), a second logout of the same token succeeds as a
no-op (logout twice equals logout once — deleting an absent record is
not an error), and after logout a refresh with the (still verifiable)
token fails with `INVALID_REFRESH_TOKEN`. -/
theorem logout_idempotent_spec (store : TokenStore) (t : SignedToken)
    (env : AuthEnv) (cfg : AuthSecrets) (now now2 : Int) (uid : String)
    (hv : verifyRefreshToken cfg now2 t = .ok uid) :
    findValidRefreshToken now (logout store t) t = none ∧
    logout (logout store t) t = logout store t ∧
    (refreshAccessToken env cfg now2 (logout store t) t).1 =
      .error ⟨"Refresh token not found or expired", 401,
              "INVALID_REFRESH_TOKEN"⟩ := by
  simp only [logout]
  refine ⟨findValidRefreshToken_revoke now store t,
          revokeRefreshToken_idem store t, ?_⟩
  rw [refreshAccessToken_no_record env cfg now2 (revokeRefreshToken store t)
        t uid hv (findValidRefreshToken_revoke now2 store t)]

/-- Witness for `logout_idempotent_spec` at a concrete store holding
the token's record. -/
theorem logout_idempotent_spec_witness :
    findValidRefreshToken 0
      (logout [⟨⟨.refresh "u1", "secret", 0, 604800⟩, "u1", 604800⟩]
        ⟨.refresh "u1", "secret", 0, 604800⟩)
      ⟨.refresh "u1", "secret", 0, 604800⟩ = none ∧
    logout
      (logout [⟨⟨.refresh "u1", "secret", 0, 604800⟩, "u1", 604800⟩]
        ⟨.refresh "u1", "secret", 0, 604800⟩)
      ⟨.refresh "u1", "secret", 0, 604800⟩ =
      logout [⟨⟨.refresh "u1", "secret", 0, 604800⟩, "u1", 604800⟩]
        ⟨.refresh "u1", "secret", 0, 604800⟩ ∧
    (refreshAccessToken
      ⟨fun _ => none, fun _ => none, fun _ => none, fun _ => none,
       fun _ _ => false⟩
      ⟨"secret", "15m", "7d"⟩ 0
      (logout [⟨⟨.refresh "u1", "secret", 0, 604800⟩, "u1", 604800⟩]
        ⟨.refresh "u1", "secret", 0, 604800⟩)
      ⟨.refresh "u1", "secret", 0, 604800⟩).1 =
      .error ⟨"Refresh token not found or expired", 401,
              "INVALID_REFRESH_TOKEN"⟩ :=
  logout_idempotent_spec [⟨⟨.refresh "u1", "secret", 0, 604800⟩, "u1", 604800⟩]
    ⟨.refresh "u1", "secret", 0, 604800⟩
    ⟨fun _ => none, fun _ => none, fun _ => none, fun _ => none,
     fun _ _ => false⟩
    ⟨"secret", "15m", "7d"⟩ 0 0 "u1" (by decide)

/-- C7: a refresh that fails with one of the enumerated taxonomy errors
— a token-verification failure (`INVALID_TOKEN_TYPE`,
`REFRESH_TOKEN_EXPIRED`, `INVALID_REFRESH_TOKEN`), no valid store
record for the presented token (`INVALID_REFRESH_TOKEN`), or no
existing active user for the decoded subject (`USER_NOT_FOUND`) —
leaves the refresh-token store exactly as it was: no record is deleted
or inserted, so every record valid before the failed call is still
valid afterwards. -/
theorem refreshAccessToken_failure_preserves_store (env : AuthEnv)
    (cfg : AuthSecrets) (now : Int) (store : TokenStore)
    (t : SignedToken) (e : AuthError)
    (h1 : (refreshAccessToken env cfg now store t).1 = .error e)
    (h2 : e.code = "INVALID_TOKEN_TYPE" ∨ e.code = "REFRESH_TOKEN_EXPIRED" ∨
          e.code = "INVALID_REFRESH_TOKEN" ∨ e.code = "USER_NOT_FOUND") :
    (refreshAccessToken env cfg now store t).2 = store := by
  cases hv : verifyRefreshToken cfg now t with
  | error e2 =>
      rw [refreshAccessToken_verify_error env cfg now store t e2 hv]
  | ok uid =>
      cases hf : findValidRefreshToken now store t with
      | none =>
          rw [refreshAccessToken_no_record env cfg now store t uid hv hf]
      | some r =>
          cases hu : env.findUserById uid with
          | none =>
              rw [refreshAccessToken_no_user env cfg now store t uid r hv hf hu]
          | some user =>
              have he := refreshAccessToken_late_error env cfg now store t
                uid r user e hv hf hu h1
              rcases h2 with h | h | h | h <;>
                (rw [he] at h; exact absurd h (by decide))

/-- Witness for `refreshAccessToken_failure_preserves_store`: a refresh
with a token signed under the wrong secret fails with
`INVALID_REFRESH_TOKEN` and leaves the (empty) store empty. -/
theorem refreshAccessToken_failure_preserves_store_witness :
    (refreshAccessToken
      ⟨fun _ => none, fun _ => none, fun _ => none, fun _ => none,
       fun _ _ => false⟩
      ⟨"secret", "15m", "7d"⟩ 0 []
      ⟨.refresh "u1", "wrong-secret", 0, 900⟩).2 = [] :=
  refreshAccessToken_failure_preserves_store
    ⟨fun _ => none, fun _ => none, fun _ => none, fun _ => none,
     fun _ _ => false⟩
    ⟨"secret", "15m", "7d"⟩ 0 []
    ⟨.refresh "u1", "wrong-secret", 0, 900⟩
    ⟨"Invalid refresh token", 401, "INVALID_REFRESH_TOKEN"⟩
    (by decide) (by decide)

/-- Configuration for the same-second rotation run. -/
def sameSecondCfg : AuthSecrets :=
  ⟨"topsecret", "15m", "7d"⟩

/-- Environment for the same-second rotation run: one active user. -/
def sameSecondEnv : AuthEnv :=
  { findUserByEmail := fun _ => none,
    findUserById := fun i =>
      if i = "u1" then
        some ⟨"u1", "u1@example.com", "h0", "User One", "client"⟩
      else none,
    findClientByUserId := fun _ => none,
    findEmployeeByUserId := fun _ => none,
    bcryptCompare := fun _ _ => false }

/-- The refresh token issued for u1 at second 0 under
`sameSecondCfg`. -/
def sameSecondToken : SignedToken :=
  ⟨.refresh "u1", "topsecret", 0, 604800⟩

/-- The store holding the record persisted for `sameSecondToken`. -/
def sameSecondStore : TokenStore :=
  [⟨sameSecondToken, "u1", 604800⟩]

/-- C1 (refuting, bug evidence): refresh rotation is not single-use
when the rotation happens in the same clock second as the presented
token's issuance.  `sameSecondToken` is exactly what
`generateRefreshToken` produces for u1 at second 0, so the refresh call
at second 0 regenerates it byte-for-byte (deterministic signing, no
nonce in the payload): the first `refresh(T)` succeeds but re-inserts a
record for T, a valid record for T exists after the "rotation", and a
second `refresh(T)` also succeeds instead of failing with
`INVALID_REFRESH_TOKEN`. -/
theorem refresh_rotation_same_second_not_single_use :
    generateRefreshToken sameSecondCfg 0 "u1" =
      some (sameSecondToken, 604800) ∧
    (refreshAccessToken sameSecondEnv sameSecondCfg 0 sameSecondStore
      sameSecondToken).1.isOk = true ∧
    (refreshAccessToken sameSecondEnv sameSecondCfg 0 sameSecondStore
      sameSecondToken).2 = [⟨sameSecondToken, "u1", 604800⟩] ∧
    findValidRefreshToken 0
      (refreshAccessToken sameSecondEnv sameSecondCfg 0 sameSecondStore
        sameSecondToken).2 sameSecondToken =
      some ⟨sameSecondToken, "u1", 604800⟩ ∧
    (refreshAccessToken sameSecondEnv sameSecondCfg 0
      (refreshAccessToken sameSecondEnv sameSecondCfg 0 sameSecondStore
        sameSecondToken).2 sameSecondToken).1.isOk = true := by
  decide
